import Mathlib

/-!
Verification of the FraudGuard frontend capture / analysis subsystem.

The definitions below are a shallow embedding of the TypeScript sources:
  - frontend/src/services/api.ts          (axios module: cancel tokens, error handling)
  - frontend/src/pages/LivePage.tsx       (webcam capture, voice recording, result state)
  - frontend/src/components/capture/WebcamCapture.tsx (device switch)
  - frontend/src/pages/EmailPage.tsx      (email text validation)
JavaScript numbers only ever enter comparisons here, so they are embedded
as rationals; binary blobs are represented by their sizes.
-/

namespace FraudGuard

/-- Prediction band, from the `prediction: 'Low' | 'Medium' | 'High'` union in
the frontend type definitions. -/
inductive Band
  | Low
  | Medium
  | High
deriving DecidableEq, Repr

/-- `AnalysisResponse` from the frontend type definitions:
`{risk_score, prediction, confidence, explanation}`. -/
structure AnalysisResponse where
  risk_score : ℚ
  prediction : Band
  confidence : ℚ
  explanation : String
deriving DecidableEq, Repr

/-- Modelled from the spec: the documented band thresholds
Low < 0.30 ≤ Medium < 0.70 ≤ High.  The frontend code itself never checks
band consistency; this predicate only states the spec side of claim C8. -/
def bandConsistent (score : ℚ) (b : Band) : Bool :=
  match b with
  | .Low => decide (score < 3/10)
  | .Medium => decide (3/10 ≤ score) && decide (score < 7/10)
  | .High => decide (7/10 ≤ score)

/-! ## api.ts: module-level cancel-token state

`api.ts` keeps one module-level variable
`let cancelTokenSource: CancelTokenSource | null = null`.
Tokens are embedded as natural numbers handed out by a counter; the
`cancelled` list records every token on which `.cancel()` was ever called. -/

/-- The module-level state of `api.ts`. -/
structure ApiState where
  cancelTokenSource : Option Nat
  nextToken : Nat
  cancelled : List Nat
deriving DecidableEq, Repr

/-- Initial module state: `cancelTokenSource = null`, no tokens issued. -/
def apiInit : ApiState := ⟨none, 0, []⟩

/-- `getCancelToken` (api.ts lines 70-73): creates a fresh source, stores it in
the module variable, and returns its token.  It does NOT cancel the
previously stored source. -/
def getCancelToken (s : ApiState) : Nat × ApiState :=
  (s.nextToken, { s with cancelTokenSource := some s.nextToken,
                         nextToken := s.nextToken + 1 })

/-- `cancelRequests` (api.ts lines 62-67): cancels the currently stored source,
if any, and clears the variable.  No caller in the repository ever invokes
this function. -/
def cancelRequests (s : ApiState) : ApiState :=
  match s.cancelTokenSource with
  | some t => { s with cancelled := s.cancelled ++ [t], cancelTokenSource := none }
  | none => s

/-- One `analyze*` submission (api.ts lines 75-154): every POST passes
`cancelToken: getCancelToken()`.  The submitted request keeps flying with the
token it was given; `pending` is the list of tokens of requests submitted so
far and not yet resolved. -/
def submitArtifact (s : ApiState) (pending : List Nat) : ApiState × List Nat :=
  let (tok, s') := getCancelToken s
  (s', pending ++ [tok])

/-- `n` back-to-back submissions starting from the initial module state. -/
def submitN : Nat → ApiState × List Nat
  | 0 => (apiInit, [])
  | n + 1 => submitArtifact (submitN n).1 (submitN n).2

/-- A request is marked Cancelled exactly when `.cancel()` was called on its
token. -/
def isCancelled (s : ApiState) (tok : Nat) : Bool := s.cancelled.contains tok

/-! ## api.ts: response interceptor and error handler -/

/-- The raw axios failure reaching the response interceptor. -/
inductive AxiosFailure
  | timeout
  | cancel
  | responseErr (detail : Option String) (message : Option String)
  | requestErr
  | other
deriving DecidableEq, Repr

/-- What the interceptor's rejection handler passes on: either a freshly thrown
plain `Error` (which has no `response`/`request` fields) or the original
axios error. -/
inductive HandledErr
  | plain (msg : String)
  | axios (e : AxiosFailure)
deriving DecidableEq, Repr

/-- The response interceptor (api.ts lines 32-43): timeout and cancellation are
replaced by fresh plain `Error`s; everything else is re-rejected as is. -/
def interceptResponse (e : AxiosFailure) : HandledErr :=
  match e with
  | .timeout => .plain "Request timeout. Please try again."
  | .cancel => .plain "Request cancelled"
  | e => .axios e

/-- JavaScript `a || b` on an optional string: the empty string is falsy. -/
def jsOrString (a : Option String) (b : String) : String :=
  match a with
  | some s => if s = "" then b else s
  | none => b

/-- `handleError` (api.ts lines 46-59), returning the message of the `Error` it
throws.  A plain `Error` thrown by the interceptor has neither `response` nor
`request`, so it falls to the final else-branch; an axios error with a
response yields `data?.detail || data?.message || 'An error occurred'`. -/
def handleErrorMsg (e : HandledErr) : String :=
  match e with
  | .plain _ => "Request failed. Please try again."
  | .axios .cancel => "Request cancelled"
  | .axios (.responseErr d m) => jsOrString d (jsOrString m "An error occurred")
  | .axios .requestErr => "Unable to connect to server. Please check your connection."
  | .axios .timeout => "Unable to connect to server. Please check your connection."
  | .axios .other => "Request failed. Please try again."

/-- The message of the error that an `analyze*` caller's `catch` receives for
a given raw failure: interceptor, then `handleError`. -/
def pipelineMsg (e : AxiosFailure) : String :=
  handleErrorMsg (interceptResponse e)

/-! ## LivePage.tsx: result state and the capture / response interleaving

`LivePage` holds `result`, `error` and `loading` React state.  `captureFrame`
submits a frame and, in its `await analyzeImage` continuation, applies
whatever response comes back with `setResult(response)`; there is no
generation comparison.  Submissions are numbered by submission order
(`submitted` counts them), and responses may arrive in any order. -/

/-- The UI state of LivePage: `result`, `error`, `loading` (lines 14-16). -/
structure UiState where
  result : Option AnalysisResponse
  error : Option String
  loading : Bool
deriving DecidableEq, Repr

/-- Initial LivePage UI state. -/
def uiInit : UiState := ⟨none, none, false⟩

/-- LivePage state together with the number of captures submitted so far. -/
structure LiveState where
  submitted : Nat
  ui : UiState
deriving DecidableEq, Repr

/-- An event of one live session: a user capture (which submits request number
`submitted`), or the arrival of the response to request `i` (success carries
the parsed `AnalysisResponse`, failure the raw axios failure). -/
inductive LiveEvent
  | capture
  | respondOk (i : Nat) (r : AnalysisResponse)
  | respondErr (i : Nat) (e : AxiosFailure)
deriving DecidableEq, Repr

/-- The `catch` branch of `captureFrame` (lines 185-190):
`setError(err.message || 'Failed to analyze frame')`, then the `finally`
clears `loading`. -/
def captureFrameCatch (u : UiState) (e : AxiosFailure) : UiState :=
  let msg := pipelineMsg e
  { u with error := some (if msg = "" then "Failed to analyze frame" else msg),
           loading := false }

/-- One step of the live session.  `capture` mirrors the front of
`captureFrame` (lines 147-148: `setLoading(true); setError(null)`; the
stored result is not cleared) plus the submission; `respondOk i r` mirrors
the success continuation `setResult(response)` + `finally setLoading(false)`
for a request that was actually submitted; `respondErr` the catch branch.
A response for a never-submitted index is ignored. -/
def liveStep (s : LiveState) (ev : LiveEvent) : LiveState :=
  match ev with
  | .capture =>
      { submitted := s.submitted + 1,
        ui := { s.ui with loading := true, error := none } }
  | .respondOk i r =>
      if i < s.submitted then
        { s with ui := { s.ui with result := some r, loading := false } }
      else s
  | .respondErr i e =>
      if i < s.submitted then
        { s with ui := captureFrameCatch s.ui e }
      else s

/-- Run a list of live-session events. -/
def liveRun (s : LiveState) (evs : List LiveEvent) : LiveState :=
  evs.foldl liveStep s

/-- The live session's initial state. -/
def liveInit : LiveState := ⟨0, uiInit⟩

/-! ## LivePage.tsx: capture guards and audio chunks -/

/-- Outcome of the guard section of `captureFrame`. -/
inductive CaptureOutcome
  | submittedFrame (w h : Nat)
  | errored (msg : String)
deriving DecidableEq, Repr

/-- Whether a capture outcome reached submission. -/
def CaptureOutcome.isSubmitted : CaptureOutcome → Bool
  | .submittedFrame _ _ => true
  | .errored _ => false

/-- The guard section of `captureFrame` (lines 129-145): missing video
element, readyState !== 4, and zero dimensions each set an error and return
before anything is sent; otherwise the frame is drawn and submitted. -/
def captureFrame (videoPresent : Bool) (readyState : Nat) (w h : Nat) :
    CaptureOutcome :=
  if videoPresent = false then .errored "Video element not found"
  else if readyState ≠ 4 then .errored "Video not ready. Please wait a moment."
  else if w = 0 ∨ h = 0 then
    .errored "Video dimensions are zero. Camera may not be working."
  else .submittedFrame w h

/-- `mediaRecorder.ondataavailable` (lines 208-212): a chunk is pushed only if
`event.data.size > 0`.  Chunks are embedded as their sizes. -/
def pushChunk (chunks : List Nat) (size : Nat) : List Nat :=
  if size > 0 then chunks ++ [size] else chunks

/-- `mediaRecorder.onstop` (lines 214-218): a Blob is built from the
accumulated chunks and `analyzeRecording` is called unconditionally.  The
return value is the payload size of the submitted audio artifact: `some`
because a submission always happens. -/
def audioOnStop (chunks : List Nat) : Option Nat :=
  some chunks.sum

/-! ## LivePage.tsx: voice recording lifecycle (start / auto-stop / stop) -/

/-- The `MediaRecorder.state` values this page distinguishes. -/
inductive RecorderState
  | recording
  | inactive
deriving DecidableEq, Repr

/-- Voice-mode state: recorder state, the React `recording` flag,
`recordingTime`, whether the 1-second interval is still armed, and how many
times `onstop` fired (each firing submits exactly one audio artifact). -/
structure VoiceState where
  recState : RecorderState
  recording : Bool
  recordingTime : Nat
  intervalActive : Bool
  submissions : Nat
deriving DecidableEq, Repr

/-- `stopRecording` (lines 250-260): only if the recorder state is
`'recording'` does it stop the recorder (which fires `onstop`, submitting
the artifact), clear the `recording` flag, and clear the interval. -/
def stopRecording (v : VoiceState) : VoiceState :=
  if v.recState = .recording then
    { recState := .inactive,
      recording := false,
      recordingTime := v.recordingTime,
      intervalActive := false,
      submissions := v.submissions + 1 }
  else v

/-- Timer events racing with the user in voice mode. -/
inductive VoiceEvent
  | tick
  | timeout4
  | manualStop
deriving DecidableEq, Repr

/-- One voice-mode event.  `tick` is the 1-second interval callback
(lines 227-235): if `prev >= 3` it calls `stopRecording` and sets the time to
4, else increments; it only runs while the interval is armed.  `timeout4` is
the `setTimeout(..., 4000)` callback (lines 237-241), guarded by
`state === 'recording'`.  `manualStop` is the Stop Early button, which calls
`stopRecording` directly. -/
def voiceStep (v : VoiceState) (ev : VoiceEvent) : VoiceState :=
  match ev with
  | .tick =>
      if v.intervalActive then
        if v.recordingTime ≥ 3 then
          { stopRecording v with recordingTime := 4 }
        else { v with recordingTime := v.recordingTime + 1 }
      else v
  | .timeout4 =>
      if v.recState = .recording then stopRecording v else v
  | .manualStop => stopRecording v

/-- Run a list of voice-mode events. -/
def voiceRun (v : VoiceState) (evs : List VoiceEvent) : VoiceState :=
  evs.foldl voiceStep v

/-- The state right after `startRecording` succeeds (lines 220-224):
recorder started, `recording = true`, `recordingTime = 0`, interval armed,
nothing submitted yet. -/
def voiceStarted : VoiceState :=
  ⟨.recording, true, 0, true, 0⟩

/-! ## LivePage.tsx: webcam stream lifecycle

`streamRef` holds the currently referenced `MediaStream` (embedded as a
stream id); a fake device provider counts `opens` (resolved `getUserMedia`
acquisitions) and `closes` (streams whose tracks were all stopped).

`startWebcam` (lines 88-115) is NOT atomic: it suspends at
`await getUserMedia` (line 95).  While an acquisition is pending,
`webcamActive` is still false, so the Start button is still rendered and
further clicks — as well as `stopWebcam` via the mode-switch button or
unmount — can interleave before the continuation
(`streamRef.current = mediaStream; setWebcamActive(true)`, lines 107-108)
runs.  The model therefore splits `startWebcam` at the await point:
`click` is the synchronous prefix, `resolve`/`reject` the two
continuations, with `pending` counting acquisitions in flight. -/

/-- LivePage webcam state: the referenced stream, the two flags, the number
of `getUserMedia` acquisitions still pending, and the fake provider's
open/close counters. -/
structure WebcamState where
  streamRef : Option Nat
  webcamActive : Bool
  webcamReady : Bool
  pending : Nat
  opens : Nat
  closes : Nat
deriving DecidableEq, Repr

/-- `stopWebcam` (LivePage lines 118-125): if a stream is referenced, stop
all its tracks and null the ref; always clear `webcamActive` and
`webcamReady`.  It has no way to abort a still-pending `getUserMedia`
acquisition, so `pending` is untouched. -/
def stopWebcam (s : WebcamState) : WebcamState :=
  match s.streamRef with
  | some _ =>
      { s with streamRef := none, closes := s.closes + 1,
               webcamActive := false, webcamReady := false }
  | none => { s with webcamActive := false, webcamReady := false }

/-- The fine-grained webcam events of LivePage. -/
inductive WebcamEv
  | click
  | resolve
  | reject
  | stop
deriving DecidableEq, Repr

/-- One fine-grained event.  `click` is the synchronous prefix of
`startWebcam` up to `await getUserMedia` (lines 90-95: clear error and
readiness, issue the acquisition).  `resolve` is the continuation of one
pending acquisition (lines 104-108): the provider opened a fresh stream,
which is stored in `streamRef` — WITHOUT stopping the previously referenced
stream — and `webcamActive` is set.  `reject` is the catch (lines 110-114):
nothing was opened; set an error and call `stopWebcam()`.  `stop` is
`stopWebcam` (Stop button, mode switch, unmount).  `resolve`/`reject`
without a pending acquisition cannot occur and are no-ops. -/
def webcamEvStep (s : WebcamState) (e : WebcamEv) : WebcamState :=
  match e with
  | .click => { s with webcamReady := false, pending := s.pending + 1 }
  | .resolve =>
      if s.pending = 0 then s
      else { s with pending := s.pending - 1, streamRef := some s.opens,
                    opens := s.opens + 1, webcamActive := true }
  | .reject =>
      if s.pending = 0 then s
      else stopWebcam { s with pending := s.pending - 1 }
  | .stop => stopWebcam s

/-- Run a sequence of fine-grained webcam events. -/
def webcamEvRun (s : WebcamState) (evs : List WebcamEv) : WebcamState :=
  evs.foldl webcamEvStep s

/-- Which fine-grained event traces the browser can produce: a `click` needs
the Start button, which LivePage renders exactly while `webcamActive` is
false (line 352) — and `webcamActive` stays false while an acquisition is
pending; `resolve`/`reject` need a pending acquisition; `stop` is always
available (Stop button, mode switch, unmount). -/
def uiEvReachable (s : WebcamState) : List WebcamEv → Bool
  | [] => true
  | .click :: t => !s.webcamActive && uiEvReachable (webcamEvStep s .click) t
  | .resolve :: t => decide (0 < s.pending) && uiEvReachable (webcamEvStep s .resolve) t
  | .reject :: t => decide (0 < s.pending) && uiEvReachable (webcamEvStep s .reject) t
  | .stop :: t => uiEvReachable (webcamEvStep s .stop) t

/-- `startWebcam` in the serialized case: the acquisition settles
successfully before anything else runs — the click immediately followed by
its own resolution. -/
def startWebcam (s : WebcamState) : WebcamState :=
  webcamEvStep (webcamEvStep s .click) .resolve

/-- Failing `startWebcam` in the serialized case: the click immediately
followed by its own rejection. -/
def startWebcamFail (s : WebcamState) : WebcamState :=
  webcamEvStep (webcamEvStep s .click) .reject

/-- The coarse webcam operations, each acquisition settled before the next
operation begins. -/
inductive WebcamOp
  | start
  | startFail
  | stop
deriving DecidableEq, Repr

/-- One coarse webcam operation. -/
def webcamStep (s : WebcamState) (op : WebcamOp) : WebcamState :=
  match op with
  | .start => startWebcam s
  | .startFail => startWebcamFail s
  | .stop => stopWebcam s

/-- Run a sequence of coarse webcam operations. -/
def webcamRun (s : WebcamState) (ops : List WebcamOp) : WebcamState :=
  ops.foldl webcamStep s

/-- UI-reachable coarse sequences: starts only happen while `webcamActive`
is false (the Start button is only rendered then); Stop is always allowed. -/
def uiReachable (s : WebcamState) : List WebcamOp → Bool
  | [] => true
  | .start :: ops => !s.webcamActive && uiReachable (webcamStep s .start) ops
  | .startFail :: ops => !s.webcamActive && uiReachable (webcamStep s .startFail) ops
  | .stop :: ops => uiReachable (webcamStep s .stop) ops

/-- The initial webcam state: no stream, inactive, nothing pending, zero
counters. -/
def webcamInit : WebcamState := ⟨none, false, false, 0, 0, 0⟩

/-! ## WebcamCapture.tsx: camera selection and device switch

State of the `WebcamCapture` component: the selected device id, the open
stream (tagged with the device it was opened for), and the fake provider's
list of currently open handles (device ids). -/

/-- WebcamCapture component state. -/
structure CamState where
  selectedDevice : String
  stream : Option String
  isStreaming : Bool
  handles : List String
deriving DecidableEq, Repr

/-- `stopWebcam` in WebcamCapture (lines 90-96): the whole body is guarded by
`if (stream)`; it stops the stream's tracks, nulls the stream and clears
`isStreaming`. -/
def camStop (s : CamState) : CamState :=
  match s.stream with
  | some d =>
      { s with stream := none, isStreaming := false, handles := s.handles.erase d }
  | none => s

/-- The device `startWebcam` asks for (lines 61-65): the selected device via an
exact constraint, else the platform default (represented by a fixed id). -/
def camTarget (s : CamState) : String :=
  if s.selectedDevice ≠ "" then s.selectedDevice else "platform-default"

/-- The success path of `startWebcam` in WebcamCapture (lines 49-75): any
previously held stream's tracks are stopped first (lines 57-59), then a
stream for the constraint device is opened, stored, and `isStreaming` set. -/
def camStart (s : CamState) : CamState :=
  let remaining :=
    match s.stream with
    | some d => s.handles.erase d
    | none => s.handles
  { s with stream := some (camTarget s), isStreaming := true,
           handles := remaining ++ [camTarget s] }

/-- The camera `select` onChange handler (lines 128-136):
`setSelectedDevice(newId)`, and if currently streaming, `stopWebcam()`.
Nothing is re-acquired. -/
def switchDevice (s : CamState) (newId : String) : CamState :=
  let s' := { s with selectedDevice := newId }
  if s'.isStreaming then camStop s' else s'

/-! ## EmailPage.tsx: analyze guard -/

/-- Externally observable actions `handleAnalyze` can emit. -/
inductive EmailAction
  | toastWarning (msg : String)
  | apiCall (text : String)
deriving DecidableEq, Repr

/-- EmailPage state relevant to the analyze guard. -/
structure EmailState where
  emailText : String
  loading : Bool
  result : Option AnalysisResponse
deriving DecidableEq, Repr

/-- JavaScript `String.prototype.trim`: drop leading and trailing
whitespace. -/
def jsTrim (s : String) : String :=
  String.mk
    (((s.data.dropWhile Char.isWhitespace).reverse.dropWhile
        Char.isWhitespace).reverse)

/-- The guard section of `handleAnalyze` (EmailPage lines 18-33): empty
trimmed text or trimmed length `< 10` shows a warning toast and returns
without touching `loading`/`result`; otherwise `loading` is set, the result
cleared, and `analyzeEmail(emailText)` is invoked. -/
def handleAnalyze (s : EmailState) : EmailState × List EmailAction :=
  if (jsTrim s.emailText) = "" then
    (s, [.toastWarning "Please enter email text"])
  else if (jsTrim s.emailText).length < 10 then
    (s, [.toastWarning "Email text is too short. Please enter at least 10 characters."])
  else
    ({ s with loading := true, result := none }, [.apiCall s.emailText])

/-- Whether an emitted action is an invocation of the analysis endpoint. -/
def EmailAction.isApiCall : EmailAction → Bool
  | .apiCall _ => true
  | .toastWarning _ => false

/-! ## Concrete sample values used in counterexamples and witnesses -/

/-- A sample server response in the High band. -/
def respA : AnalysisResponse := ⟨85/100, .High, 9/10, "manipulated"⟩

/-- A different sample server response, in the Low band. -/
def respB : AnalysisResponse := ⟨2/10, .Low, 8/10, "authentic"⟩

/-- A response whose band contradicts the documented thresholds:
risk 0.5 lies in the Medium band but the server says Low. -/
def inconsistentResp : AnalysisResponse := ⟨1/2, .Low, 9/10, "authentic"⟩

/-- A WebcamCapture state streaming from device A with one open handle. -/
def camA : CamState := ⟨"A", some "A", true, ["A"]⟩

/-! ## Shared invariants and helper lemmas -/

/-- Voice-mode invariant: either still recording with nothing submitted, or
stopped with exactly one submission. -/
def VoiceInv (v : VoiceState) : Prop :=
  (v.recState = .recording ∧ v.submissions = 0) ∨
  (v.recState = .inactive ∧ v.submissions = 1)

/-- Webcam bookkeeping invariant along serialized (coarse) operation
sequences: opens exceed closes by exactly the number of currently held
streams, an inactive page holds no stream, and no acquisition is pending
between operations. -/
def WebcamInv (s : WebcamState) : Prop :=
  s.opens = s.closes + (if s.streamRef.isSome then 1 else 0) ∧
  (s.webcamActive = false → s.streamRef = none) ∧
  s.pending = 0

lemma voiceInv_step (v : VoiceState) (e : VoiceEvent) (hv : VoiceInv v) :
    VoiceInv (voiceStep v e) := by
  rcases hv with ⟨h1, h2⟩ | ⟨h1, h2⟩ <;>
    cases e <;>
    simp [voiceStep, stopRecording, VoiceInv, h1, h2] <;>
    split_ifs <;> simp [h1, h2]

lemma voiceInv_run (evs : List VoiceEvent) :
    ∀ v : VoiceState, VoiceInv v → VoiceInv (voiceRun v evs) := by
  induction evs with
  | nil => intro v hv; exact hv
  | cons e t ih =>
      intro v hv
      exact ih (voiceStep v e) (voiceInv_step v e hv)

lemma webcamInv_step (s : WebcamState) (op : WebcamOp)
    (hs : WebcamInv s) (hop : op = .start ∨ op = .startFail → s.webcamActive = false) :
    WebcamInv (webcamStep s op) := by
  obtain ⟨h1, h2, hp⟩ := hs
  cases op with
  | start =>
      have href : s.streamRef = none := h2 (hop (Or.inl rfl))
      simp [webcamStep, startWebcam, webcamEvStep, WebcamInv, href, hp] at h1 ⊢
      omega
  | startFail =>
      have href : s.streamRef = none := h2 (hop (Or.inr rfl))
      simp [webcamStep, startWebcamFail, webcamEvStep, stopWebcam, WebcamInv,
        href, hp] at h1 ⊢
      omega
  | stop =>
      cases href : s.streamRef with
      | some n =>
          simp [webcamStep, stopWebcam, WebcamInv, href, hp] at h1 ⊢
          omega
      | none =>
          simp [webcamStep, stopWebcam, WebcamInv, href, hp] at h1 ⊢
          omega

lemma webcamInv_run (ops : List WebcamOp) :
    ∀ s : WebcamState, WebcamInv s → uiReachable s ops = true →
      WebcamInv (webcamRun s ops) := by
  induction ops with
  | nil => intro s hs _; exact hs
  | cons op t ih =>
      intro s hs hops
      cases op with
      | start =>
          simp [uiReachable] at hops
          exact ih _ (webcamInv_step s .start hs (fun _ => hops.1)) hops.2
      | startFail =>
          simp [uiReachable] at hops
          exact ih _ (webcamInv_step s .startFail hs (fun _ => hops.1)) hops.2
      | stop =>
          simp [uiReachable] at hops
          exact ih _ (webcamInv_step s .stop hs (by simp)) hops

lemma submitN_nextToken (n : Nat) : (submitN n).1.nextToken = n := by
  induction n with
  | zero => rfl
  | succ m ihm => simp [submitN, submitArtifact, getCancelToken, ihm]

lemma jsOrString_ne_empty (a : Option String) (b : String) (hb : b ≠ "") :
    jsOrString a b ≠ "" := by
  cases a with
  | none => simpa [jsOrString] using hb
  | some s =>
      simp only [jsOrString]
      split_ifs with h
      · exact hb
      · exact h

lemma pipelineMsg_ne_empty (e : AxiosFailure) : pipelineMsg e ≠ "" := by
  cases e with
  | responseErr d m =>
      exact jsOrString_ne_empty d _ (jsOrString_ne_empty m _ (by decide))
  | timeout => decide
  | cancel => decide
  | requestErr => decide
  | other => decide

/-! ## Claims -/

/-- C1 (counterexample): two captures are submitted; the response of the
later capture (generation 1) arrives first and the response of the earlier
capture (generation 0) arrives second.  The final UI result is that of
generation 0, not of the last submitted generation: a stale overwrite. -/
theorem c1_stale_result_overwrites :
    (liveRun liveInit
        [.capture, .capture, .respondOk 1 respA, .respondOk 0 respB]).ui.result
      = some respB ∧
    respB ≠ respA ∧
    (liveRun liveInit
        [.capture, .capture, .respondOk 1 respA, .respondOk 0 respB]).submitted
      = 2 := by
  refine ⟨rfl, ?_, rfl⟩
  intro h
  exact absurd (congrArg AnalysisResponse.prediction h) (by decide)

/-- C1 (amended): `captureFrame` applies every successful response on
arrival with no generation comparison — the response of ANY submitted
request, stale or current, overwrites the UI result, so the final result is
that of the last response to arrive, not of the last capture submitted. -/
theorem c1_amended_every_response_applied (s : LiveState) (i : Nat)
    (r : AnalysisResponse) (h : i < s.submitted) :
    (liveStep s (.respondOk i r)).ui.result = some r ∧
    (liveStep s (.respondOk i r)).ui.loading = false := by
  simp [liveStep, h]

/-- Witness for the amended C1 theorem at a concrete state. -/
theorem c1_amended_witness :
    0 < (⟨1, uiInit⟩ : LiveState).submitted ∧
    ((liveStep ⟨1, uiInit⟩ (.respondOk 0 respB)).ui.result = some respB ∧
     (liveStep ⟨1, uiInit⟩ (.respondOk 0 respB)).ui.loading = false) :=
  ⟨by decide, c1_amended_every_response_applied ⟨1, uiInit⟩ 0 respB (by decide)⟩

/-- C2 (counterexample): after a second submission while the first request is
still pending, both requests are pending and the first request's token was
never cancelled — the older request is not marked Cancelled and the new one
is not the sole pending request. -/
theorem c2_second_submission_not_sole_pending :
    (submitN 2).2 = [0, 1] ∧
    (submitN 2).1.cancelled = [] ∧
    isCancelled (submitN 2).1 0 = false := by
  decide

/-- C2 (amended): submitting a new capture never cancels the older pending
request: `getCancelToken` merely replaces the stored cancel-token source, so
after any number of submissions no token has ever been cancelled and all
submitted requests remain pending. -/
theorem c2_amended_submissions_never_cancel (n : Nat) :
    (submitN n).1.cancelled = [] ∧
    (submitN n).2.length = n ∧
    (submitN n).1.cancelTokenSource = (if n = 0 then none else some (n - 1)) := by
  induction n with
  | zero => simp [submitN, apiInit]
  | succ n ih =>
      obtain ⟨h1, h2, _⟩ := ih
      simp [submitN, submitArtifact, getCancelToken, h1, h2, submitN_nextToken]

/-- C3 (counterexample): `mediaRecorder.onstop` submits the accumulated
chunks unconditionally — with an empty chunk set a zero-length audio
artifact IS submitted to the analysis endpoint (no EmptyCapture failure
exists anywhere in the code). -/
theorem c3_empty_audio_is_submitted :
    audioOnStop [] = some 0 := by
  decide

/-- C3 (amended): a zero-dimension video frame is rejected inside
`captureFrame` before submission (with an error message, though no error
kind named EmptyCapture exists), but an empty audio chunk set is NOT
rejected: `onstop` always submits, producing a zero-length payload when no
chunks accumulated. -/
theorem c3_amended_zero_dim_rejected_audio_passes (vp : Bool) (rs w h : Nat)
    (chunks : List Nat) (hw : w = 0 ∨ h = 0) :
    (captureFrame vp rs w h).isSubmitted = false ∧
    audioOnStop chunks = some chunks.sum := by
  refine ⟨?_, rfl⟩
  cases vp with
  | false => simp [captureFrame, CaptureOutcome.isSubmitted]
  | true =>
      by_cases hrs : rs = 4
      · simp [captureFrame, hrs, hw, CaptureOutcome.isSubmitted]
      · simp [captureFrame, hrs, CaptureOutcome.isSubmitted]

/-- Witness for the amended C3 theorem at a concrete zero-width frame and an
empty chunk list. -/
theorem c3_amended_witness :
    ((0 : Nat) = 0 ∨ (480 : Nat) = 0) ∧
    ((captureFrame true 4 0 480).isSubmitted = false ∧
     audioOnStop [] = some ([] : List Nat).sum) :=
  ⟨Or.inl rfl,
   c3_amended_zero_dim_rejected_audio_passes true 4 0 480 [] (Or.inl rfl)⟩

/-- C4: `stopRecording` is idempotent (auto-stop and manual stop both call
it); for every interleaving of timer ticks, the 4-second timeout and manual
stops, once the trailing 4-second timeout has fired the recording is stopped
and its artifact was submitted exactly once; and a run of pure 1-second
ticks auto-stops at the 4-second ceiling. -/
theorem c4_stop_idempotent_single_submission (v : VoiceState)
    (evs : List VoiceEvent) :
    stopRecording (stopRecording v) = stopRecording v ∧
    (voiceRun voiceStarted (evs ++ [.timeout4])).submissions = 1 ∧
    (voiceRun voiceStarted (evs ++ [.timeout4])).recState = .inactive ∧
    (voiceRun voiceStarted [.tick, .tick, .tick, .tick]).recState = .inactive ∧
    (voiceRun voiceStarted [.tick, .tick, .tick, .tick]).recordingTime = 4 ∧
    (voiceRun voiceStarted [.tick, .tick, .tick, .tick]).submissions = 1 := by
  have hidem : stopRecording (stopRecording v) = stopRecording v := by
    by_cases h : v.recState = .recording <;> simp [stopRecording, h]
  have hinv := voiceInv_run evs voiceStarted (Or.inl ⟨rfl, rfl⟩)
  have hrun : voiceRun voiceStarted (evs ++ [.timeout4])
      = voiceStep (voiceRun voiceStarted evs) .timeout4 := by
    simp [voiceRun, List.foldl_append]
  rcases hinv with ⟨h1, h2⟩ | ⟨h1, h2⟩ <;>
    exact ⟨hidem, by rw [hrun]; simp [voiceStep, stopRecording, h1, h2],
           by rw [hrun]; simp [voiceStep, stopRecording, h1, h2],
           by decide, by decide, by decide⟩

/-- C5 (counterexample): releasing does NOT guarantee opens equal closes
after every sequence ending in release.  Because `startWebcam` suspends at
`await getUserMedia` while `webcamActive` is still false, the Start button
can be clicked a second time during the pending acquisition — a
browser-reachable event trace.  Both acquisitions resolve, the second
resolution overwrites `streamRef` without stopping the first stream's
tracks, and the final `stopWebcam` closes only the second stream: after a
trace ending in release, opens = 2 but closes = 1 — a leaked open device
handle. -/
theorem c5_overlapping_acquire_leaks_handle :
    uiEvReachable webcamInit [.click, .click, .resolve, .resolve, .stop] = true ∧
    (webcamEvRun webcamInit [.click, .click, .resolve, .resolve, .stop]).opens = 2 ∧
    (webcamEvRun webcamInit [.click, .click, .resolve, .resolve, .stop]).closes = 1 ∧
    (webcamEvRun webcamInit [.click, .click, .resolve, .resolve, .stop]).streamRef
      = none := by
  decide

/-- C5 (amended): `stopWebcam` is always safe to call and idempotent, and
always leaves no referenced stream with the page inactive; but it only stops
the currently referenced stream, so the opens-equal-closes guarantee holds
only for serialized sequences — every `getUserMedia` acquisition settled
before the next operation begins.  Along every UI-reachable serialized
operation sequence ending in a stop, the fake provider's open count equals
its close count. -/
theorem c5_amended_release_idempotent_serialized (s : WebcamState)
    (ops : List WebcamOp) (hops : uiReachable webcamInit ops = true) :
    stopWebcam (stopWebcam s) = stopWebcam s ∧
    (stopWebcam s).streamRef = none ∧
    (stopWebcam s).webcamActive = false ∧
    (webcamRun webcamInit (ops ++ [.stop])).opens
      = (webcamRun webcamInit (ops ++ [.stop])).closes := by
  have hinv := webcamInv_run ops webcamInit ⟨by decide, by decide, by decide⟩ hops
  have hrun : webcamRun webcamInit (ops ++ [.stop])
      = webcamStep (webcamRun webcamInit ops) .stop := by
    simp [webcamRun, List.foldl_append]
  obtain ⟨h1, _, _⟩ := hinv
  refine ⟨?_, ?_, ?_, ?_⟩
  · cases h : s.streamRef <;> simp [stopWebcam, h]
  · cases h : s.streamRef <;> simp [stopWebcam, h]
  · cases h : s.streamRef <;> simp [stopWebcam, h]
  · rw [hrun]
    cases h : (webcamRun webcamInit ops).streamRef with
    | none => simp [webcamStep, stopWebcam, h]; simpa [h] using h1
    | some n => simp [webcamStep, stopWebcam, h]; simp [h] at h1; omega

/-- Witness for the amended C5 theorem at a concrete state and the sequence
start-then-stop. -/
theorem c5_amended_witness :
    uiReachable webcamInit [.start] = true ∧
    (stopWebcam (stopWebcam webcamInit) = stopWebcam webcamInit ∧
     (stopWebcam webcamInit).streamRef = none ∧
     (stopWebcam webcamInit).webcamActive = false ∧
     (webcamRun webcamInit ([.start] ++ [.stop])).opens
       = (webcamRun webcamInit ([.start] ++ [.stop])).closes) :=
  ⟨by decide,
   c5_amended_release_idempotent_serialized webcamInit [.start] (by decide)⟩

/-- C6 (counterexample): switching the camera device while streaming from
device A does not end Active with one handle for the new device — the
onChange handler only stops the stream, leaving the camera off with zero
open handles. -/
theorem c6_switch_leaves_camera_off :
    switchDevice camA "B" = ⟨"B", none, false, []⟩ ∧
    (switchDevice camA "B").handles.length = 0 ∧
    (switchDevice camA "B").isStreaming = false := by
  refine ⟨?_, ?_, ?_⟩ <;> decide

/-- C6 (amended): switching the selected device while streaming stops the
current stream and leaves the camera off with no open handle; only when the
user starts the camera again is exactly one handle opened, for the newly
selected device. -/
theorem c6_amended_switch_requires_restart (s : CamState) (d dev0 : String)
    (hstream : s.isStreaming = true) (hs : s.stream = some dev0)
    (hh : s.handles = [dev0]) (hd : d ≠ "") :
    (switchDevice s d).stream = none ∧
    (switchDevice s d).isStreaming = false ∧
    (switchDevice s d).handles = [] ∧
    (switchDevice s d).selectedDevice = d ∧
    (camStart (switchDevice s d)).handles = [d] ∧
    (camStart (switchDevice s d)).stream = some d ∧
    (camStart (switchDevice s d)).isStreaming = true := by
  simp [switchDevice, hstream, camStop, camStart, camTarget, hs, hh, hd]

/-- Witness for the amended C6 theorem: streaming from device A, switch to
device B. -/
theorem c6_amended_witness :
    (camA.isStreaming = true ∧ camA.stream = some "A" ∧
     camA.handles = ["A"] ∧ ("B" : String) ≠ "") ∧
    ((switchDevice camA "B").stream = none ∧
     (switchDevice camA "B").isStreaming = false ∧
     (switchDevice camA "B").handles = [] ∧
     (switchDevice camA "B").selectedDevice = "B" ∧
     (camStart (switchDevice camA "B")).handles = ["B"] ∧
     (camStart (switchDevice camA "B")).stream = some "B" ∧
     (camStart (switchDevice camA "B")).isStreaming = true) :=
  ⟨⟨rfl, rfl, rfl, by decide⟩,
   c6_amended_switch_requires_restart camA "B" "A" rfl rfl rfl (by decide)⟩

/-- C7 (counterexample): a non-2xx response whose body contains the detail
string "" does not surface "" — JavaScript `||` treats the empty string as
falsy, so the generic fallback message is surfaced instead. -/
theorem c7_empty_detail_not_verbatim :
    pipelineMsg (.responseErr (some "") none) = "An error occurred" ∧
    ("An error occurred" : String) ≠ "" := by
  exact ⟨rfl, by decide⟩

/-- C7 (amended): for every non-2xx response whose body contains a NON-EMPTY
detail string, the surfaced error message is exactly that detail string,
verbatim. -/
theorem c7_amended_nonempty_detail_verbatim (d : String) (m : Option String)
    (hd : d ≠ "") :
    pipelineMsg (.responseErr (some d) m) = d := by
  simp [pipelineMsg, interceptResponse, handleErrorMsg, jsOrString, hd]

/-- Witness for the amended C7 theorem at a concrete detail string. -/
theorem c7_amended_witness :
    ("Invalid image format" : String) ≠ "" ∧
    pipelineMsg (.responseErr (some "Invalid image format") none)
      = "Invalid image format" :=
  ⟨by decide,
   c7_amended_nonempty_detail_verbatim "Invalid image format" none (by decide)⟩

/-- C8 (counterexample): for the response `{risk_score: 0.5, prediction:
Low}` — inconsistent with the documented thresholds — the full post-state of
applying it is exactly `{result := the response verbatim, error := none,
loading := false}`.  The session state has no other component: the band is
not re-derived (the stored prediction is still Low), and no diagnostic
mismatch flag of any kind is recorded anywhere. -/
theorem c8_inconsistent_band_applied_without_flag :
    bandConsistent inconsistentResp.risk_score inconsistentResp.prediction
      = false ∧
    liveRun liveInit [.capture, .respondOk 0 inconsistentResp]
      = ⟨1, ⟨some inconsistentResp, none, false⟩⟩ := by
  constructor
  · simp only [bandConsistent, inconsistentResp, decide_eq_false_iff_not, not_lt]
    norm_num
  · rfl

/-- C8 (amended): the reconciler applies a band-inconsistent result to
session state verbatim, without re-deriving the band — but it records NO
diagnostic mismatch flag: the post-state is exactly the previous state with
the result stored and loading cleared, nothing more. -/
theorem c8_amended_applied_verbatim_no_flag (s : LiveState) (i : Nat)
    (r : AnalysisResponse)
    (_hb : bandConsistent r.risk_score r.prediction = false)
    (hi : i < s.submitted) :
    liveStep s (.respondOk i r)
      = { s with ui := { s.ui with result := some r, loading := false } } := by
  simp [liveStep, hi]

/-- Witness for the amended C8 theorem at the inconsistent Low/0.5 response. -/
theorem c8_amended_witness :
    (bandConsistent inconsistentResp.risk_score inconsistentResp.prediction
        = false ∧
     0 < (⟨1, uiInit⟩ : LiveState).submitted) ∧
    liveStep ⟨1, uiInit⟩ (.respondOk 0 inconsistentResp)
      = ⟨1, ⟨some inconsistentResp, none, false⟩⟩ :=
  ⟨⟨by simp only [bandConsistent, inconsistentResp, decide_eq_false_iff_not,
      not_lt]; norm_num, by decide⟩,
   c8_amended_applied_verbatim_no_flag ⟨1, uiInit⟩ 0 inconsistentResp
     (by simp only [bandConsistent, inconsistentResp, decide_eq_false_iff_not,
       not_lt]; norm_num)
     (by decide)⟩

/-- C9 (counterexample): a request outcome classified as Cancelled IS shown
to the user: the `catch` of `captureFrame` sets the visible error state (the
interceptor rewraps the cancellation, so the message surfaced is the generic
request-failure one). -/
theorem c9_cancelled_not_silent :
    (captureFrameCatch uiInit .cancel).error
      = some "Request failed. Please try again." := by
  rfl

/-- C9 (amended): no failure kind is silent — every failure outcome,
Cancelled included, sets exactly one non-empty user-visible error message
and clears the loading flag. -/
theorem c9_amended_every_failure_one_message (u : UiState) (e : AxiosFailure) :
    (captureFrameCatch u e).error = some (pipelineMsg e) ∧
    pipelineMsg e ≠ "" ∧
    (captureFrameCatch u e).loading = false := by
  have h := pipelineMsg_ne_empty e
  exact ⟨by simp [captureFrameCatch, h], h, by simp [captureFrameCatch]⟩

/-- C10: with entered text whose trimmed form is empty or shorter than 10
characters, `handleAnalyze` never invokes the email analysis endpoint: it
emits exactly one warning toast and leaves the page state (including
`loading` and `result`) unchanged. -/
theorem c10_short_email_no_api_call (s : EmailState)
    (h : (jsTrim s.emailText).length < 10) :
    (handleAnalyze s).1 = s ∧
    List.filter EmailAction.isApiCall (handleAnalyze s).2 = [] ∧
    ((handleAnalyze s).2 = [.toastWarning "Please enter email text"] ∨
     (handleAnalyze s).2
       = [.toastWarning
            "Email text is too short. Please enter at least 10 characters."]) := by
  by_cases he : (jsTrim s.emailText) = ""
  · simp [handleAnalyze, he, EmailAction.isApiCall]
  · simp [handleAnalyze, he, h, EmailAction.isApiCall]

/-- Witness for the C10 theorem at the concrete two-character input "hi". -/
theorem c10_witness :
    (jsTrim (⟨"hi", false, none⟩ : EmailState).emailText).length < 10 ∧
    ((handleAnalyze ⟨"hi", false, none⟩).1 = ⟨"hi", false, none⟩ ∧
     List.filter EmailAction.isApiCall (handleAnalyze ⟨"hi", false, none⟩).2
       = [] ∧
     ((handleAnalyze ⟨"hi", false, none⟩).2
        = [.toastWarning "Please enter email text"] ∨
      (handleAnalyze ⟨"hi", false, none⟩).2
        = [.toastWarning
             "Email text is too short. Please enter at least 10 characters."])) :=
  ⟨by decide, c10_short_email_no_api_call ⟨"hi", false, none⟩ (by decide)⟩

end FraudGuard
